import Mathlib

/-!
Verification development for the RoyDental data-access layer
(repositories over a relational store and a Redis cache).

The Go source is shallowly embedded: the shared Redis store is an
association list from keys to values, repository operations are pure
state-passing functions, and fallible external effects (lock contention,
cache transport failures) are supplied as explicit oracles.  Monetary
amounts (Go float64) are modelled as rationals: every claim about them
only concerns which arithmetic expression the code stores, never
rounding behaviour.
-/

namespace RoyDental

/-- The shared Redis key-value store, as an association list.
Keys are unique by construction: kvSet removes the key first. -/
def KV : Type := List (String × String)

instance : DecidableEq KV := by unfold KV; infer_instance

instance : Repr KV := by unfold KV; infer_instance

/-- Redis GET: the value at a key, none when the key is absent. -/
def kvGet (s : KV) (k : String) : Option String :=
  (s.find? (fun e => e.1 == k)).map (fun e => e.2)

/-- Redis DEL of a single key. -/
def kvDel (s : KV) (k : String) : KV :=
  s.filter (fun e => e.1 != k)

/-- Redis SET (used through SetNX after an absence check). -/
def kvSet (s : KV) (k v : String) : KV :=
  (k, v) :: kvDel s k

/-- Sequential DELs of a list of keys. -/
def kvDelKeys (s : KV) (ks : List String) : KV :=
  ks.foldl kvDel s

/-- Redis glob matching, as used by SCAN with a MATCH pattern, written
with an explicit fuel so that it is structurally recursive (every
recursive call shrinks the combined length of pattern and string by at
least one, so the wrapper below always supplies enough fuel). -/
def globMatchFuel : Nat → List Char → List Char → Bool
  | 0, _, _ => false
  | _ + 1, [], [] => true
  | _ + 1, [], _ :: _ => false
  | f + 1, '*' :: ps, [] => globMatchFuel f ps []
  | f + 1, '*' :: ps, c :: cs =>
      globMatchFuel f ps (c :: cs) || globMatchFuel f ('*' :: ps) cs
  | _ + 1, '?' :: _, [] => false
  | f + 1, '?' :: ps, _ :: cs => globMatchFuel f ps cs
  | _ + 1, _ :: _, [] => false
  | f + 1, p :: ps, c :: cs => p == c && globMatchFuel f ps cs

def globMatch (ps cs : List Char) : Bool :=
  globMatchFuel (ps.length + cs.length + 1) ps cs

/-- Cache.DeleteAll (cache/cache.go): SCAN with the pattern and DEL every
matching key.  The cursor-based iteration visits every key, so the model
deletes every key the pattern matches. -/
def kvDelMatching (s : KV) (pat : String) : KV :=
  s.filter (fun e => !globMatch pat.toList e.1.toList)

/-- Sequential DeleteAll calls for a list of patterns. -/
def kvDelMatchingAll (s : KV) (pats : List String) : KV :=
  pats.foldl kvDelMatching s

theorem kvGet_kvDel_self (s : KV) (k : String) : kvGet (kvDel s k) k = none := by
  unfold kvGet kvDel
  rw [Option.map_eq_none', List.find?_eq_none]
  intro e he
  have := (List.mem_filter.mp he).2
  simpa [bne] using this

theorem kvGet_kvSet_self (s : KV) (k v : String) : kvGet (kvSet s k v) k = some v := by
  unfold kvGet kvSet
  simp [List.find?]

theorem kvGet_none_of_filter (s : KV) (q : String × String → Bool) (k : String)
    (h : kvGet s k = none) : kvGet (s.filter q) k = none := by
  unfold kvGet at *
  rw [Option.map_eq_none', List.find?_eq_none]
  rw [Option.map_eq_none', List.find?_eq_none] at h
  intro e he
  exact h e (List.mem_filter.mp he).1

theorem kvGet_kvDel_none (s : KV) (k k' : String)
    (h : kvGet s k = none) : kvGet (kvDel s k') k = none :=
  kvGet_none_of_filter s _ k h

theorem kvGet_kvDelMatching_none (s : KV) (pat : String) (k : String)
    (h : kvGet s k = none) : kvGet (kvDelMatching s pat) k = none :=
  kvGet_none_of_filter s _ k h

theorem kvGet_kvDelKeys_none (ks : List String) (s : KV) (k : String)
    (h : kvGet s k = none) : kvGet (kvDelKeys s ks) k = none := by
  induction ks generalizing s with
  | nil => exact h
  | cons a t ih => exact ih (kvDel s a) (kvGet_kvDel_none s k a h)

theorem kvGet_kvDelKeys_of_mem (ks : List String) (s : KV) (k : String)
    (h : k ∈ ks) : kvGet (kvDelKeys s ks) k = none := by
  induction ks generalizing s with
  | nil => cases h
  | cons a t ih =>
    rcases List.mem_cons.mp h with rfl | hm
    · exact kvGet_kvDelKeys_none t (kvDel s k) k (kvGet_kvDel_self s k)
    · exact ih (kvDel s a) hm

/-- A SCAN-and-delete over a pattern that matches itself removes the key
equal to the pattern. -/
theorem kvGet_kvDelMatching_self (s : KV) (pat : String)
    (hp : globMatch pat.toList pat.toList = true) :
    kvGet (kvDelMatching s pat) pat = none := by
  unfold kvGet kvDelMatching
  rw [Option.map_eq_none', List.find?_eq_none]
  intro e he
  have hsurv := (List.mem_filter.mp he).2
  intro heq
  have : e.1 = pat := by simpa using heq
  rw [this] at hsurv
  rw [hp] at hsurv
  simp at hsurv

theorem kvGet_kvDelMatchingAll_none (pats : List String) (s : KV) (k : String)
    (h : kvGet s k = none) : kvGet (kvDelMatchingAll s pats) k = none := by
  induction pats generalizing s with
  | nil => exact h
  | cons a t ih => exact ih (kvDelMatching s a) (kvGet_kvDelMatching_none s a k h)

theorem kvGet_kvDelMatchingAll_of_mem (pats : List String) (s : KV) (k : String)
    (hk : globMatch k.toList k.toList = true) (h : k ∈ pats) :
    kvGet (kvDelMatchingAll s pats) k = none := by
  induction pats generalizing s with
  | nil => cases h
  | cons a t ih =>
    rcases List.mem_cons.mp h with rfl | hm
    · exact kvGet_kvDelMatchingAll_none t (kvDelMatching s k) k
        (kvGet_kvDelMatching_self s k hk)
    · exact ih (kvDelMatching s a) hm

/-- Outcome of releasing a distributed lock. -/
inductive ReleaseOutcome
  | released
  | notOwner
  deriving Repr, DecidableEq

/-- database.ReleaseLock (database/redis.go): a Lua script run server-side
(hence a single atomic step on the store) that GETs the key, compares it
with the presented token, DELs on a match and returns 0 otherwise, which
the Go wrapper turns into a not-the-lock-owner error. -/
def releaseLock (s : KV) (k v : String) : ReleaseOutcome × KV :=
  match kvGet s k with
  | some cur => if cur = v then (.released, kvDel s k) else (.notOwner, s)
  | none => (.notOwner, s)

/-- C4: releasing a lock is an atomic compare-and-delete on the stored
owner token.  When the stored token matches the presented one the entry
is deleted and release succeeds; when the key holds a different token or
is absent, release reports a not-owner error and the store is unchanged,
so a caller can never remove a lock held by a different owner. -/
theorem releaseLock_owner_check (s : KV) (k v : String) :
    (kvGet s k = some v →
      releaseLock s k v = (.released, kvDel s k) ∧
      kvGet (releaseLock s k v).2 k = none) ∧
    (kvGet s k ≠ some v →
      releaseLock s k v = (.notOwner, s)) := by
  constructor
  · intro h
    have heq : releaseLock s k v = (.released, kvDel s k) := by
      unfold releaseLock
      rw [h]
      simp
    exact ⟨heq, by rw [heq]; exact kvGet_kvDel_self s k⟩
  · intro h
    unfold releaseLock
    cases hc : kvGet s k with
    | none => rfl
    | some cur =>
      have : cur ≠ v := by intro he; subst he; exact h hc
      simp [this]

/-- Witness for C4 at a concrete store: the holder of token t1 releases
and the entry disappears; a caller presenting t2 gets a not-owner error
and the entry survives. -/
theorem releaseLock_owner_check_witness :
    (kvGet [("patient_lock:DP-000001", "t1")] "patient_lock:DP-000001" = some "t1" ∧
      releaseLock [("patient_lock:DP-000001", "t1")] "patient_lock:DP-000001" "t1" =
        (.released, kvDel [("patient_lock:DP-000001", "t1")] "patient_lock:DP-000001") ∧
      kvGet (releaseLock [("patient_lock:DP-000001", "t1")] "patient_lock:DP-000001" "t1").2
        "patient_lock:DP-000001" = none) ∧
    (kvGet [("patient_lock:DP-000001", "t1")] "patient_lock:DP-000001" ≠ some "t2" ∧
      releaseLock [("patient_lock:DP-000001", "t1")] "patient_lock:DP-000001" "t2" =
        (.notOwner, [("patient_lock:DP-000001", "t1")])) := by
  refine ⟨⟨by decide, ?_, ?_⟩, by decide, (releaseLock_owner_check _ _ _).2 (by decide)⟩
  · exact ((releaseLock_owner_check _ _ _).1 (by decide)).1
  · exact ((releaseLock_owner_check _ _ _).1 (by decide)).2

/-- Result of a raw Redis GET as seen by go-redis: a value, the nil reply
(key absent), or a transport/connection error. -/
inductive RedisRead
  | val (v : String)
  | nilReply
  | transportErr
  deriving Repr, DecidableEq

/-- Raw client GET against the store, with a transport-failure oracle. -/
def redisGet (s : KV) (transportFail : Bool) (k : String) : RedisRead :=
  if transportFail then .transportErr
  else
    match kvGet s k with
    | some v => .val v
    | none => .nilReply

/-- Cache.Get (cache/cache.go): wraps the client GET; the redis.Nil reply
for an absent key is mapped to the empty string with a nil error, and
only transport errors are surfaced. -/
def cacheGet (s : KV) (transportFail : Bool) (k : String) : Except Unit String :=
  match redisGet s transportFail k with
  | .val v => .ok v
  | .nilReply => .ok ""
  | .transportErr => .error ()

/-- A row of the patient table (models/usersModel.go).  Only the primary
key and the natural-key columns are modelled: the remaining payload
columns (sex, contact and insurance details, timestamps) are carried
verbatim by every operation and never influence a branch. -/
structure PatientRow where
  id : String
  firstName : String
  middleName : String
  lastName : String
  dateOfBirth : String
  deriving Repr, DecidableEq

/-- getPatientCacheKey (repositories/patientRepository.go). -/
def patientCacheKey (pid : String) : String := "patient_cache:" ++ pid

/-- PatientRepository.GetByID: consult the cache first; on a transport
error or an unparseable cached value fall through to the backing store;
populate the cache on a successful fallback, with a population failure
logged only.  JSON round-tripping is abstracted into decode/encode
parameters; the backing-store read is modelled as infallible (its own
error paths do not involve the cache).  Returns the result and the new
cache contents. -/
def patientGetByID (cache : KV) (transportFail : Bool)
    (decode : String → Option PatientRow) (encode : PatientRow → String)
    (setFails : Bool) (rows : List PatientRow) (id : String) :
    Except Unit (Option PatientRow) × KV :=
  let dbPath : Except Unit (Option PatientRow) × KV :=
    match rows.find? (fun r => r.id == id) with
    | none => (.ok none, cache)
    | some r =>
        (.ok (some r), if setFails then cache else kvSet cache (patientCacheKey id) (encode r))
  match cacheGet cache transportFail (patientCacheKey id) with
  | .ok v =>
      match decode v with
      | some p => (.ok (some p), cache)
      | none => dbPath
  | .error _ => dbPath

/-- PatientRepository.GetAll: same cache-first shape over the collection
key; the backing-store ordering clause does not affect the claims. -/
def patientGetAll (cache : KV) (transportFail : Bool)
    (decodeList : String → Option (List PatientRow))
    (encodeList : List PatientRow → String)
    (setFails : Bool) (rows : List PatientRow) :
    Except Unit (List PatientRow) × KV :=
  match cacheGet cache transportFail "patients_cache" with
  | .ok v =>
      match decodeList v with
      | some ps => (.ok ps, cache)
      | none => (.ok rows, if setFails then cache else kvSet cache "patients_cache" (encodeList rows))
  | .error _ => (.ok rows, if setFails then cache else kvSet cache "patients_cache" (encodeList rows))

/-- C5, counterexample: a store holding the key with an empty value and a
store not holding the key at all produce the same Cache.Get result
(ok ""), so the get result does not let the caller tell key-not-found
apart from key-present-with-empty-value: the wrapper maps the redis.Nil
reply to an empty string with a nil error. -/
theorem cacheGet_absent_indistinguishable_from_empty :
    kvGet [("patient_cache:DP-000001", "")] "patient_cache:DP-000001" = some "" ∧
    kvGet ([] : KV) "patient_cache:DP-000001" = none ∧
    cacheGet [("patient_cache:DP-000001", "")] false "patient_cache:DP-000001" = .ok "" ∧
    cacheGet ([] : KV) false "patient_cache:DP-000001" = .ok "" :=
  ⟨rfl, rfl, rfl, rfl⟩

/-- C5, amended: a transport/connection error on a cache get is absorbed
by the repository read path, which falls through to the backing store;
but an absent key is returned as an empty string with a nil error,
exactly as a present-but-empty value is, so the two are not
distinguishable from the get result. -/
theorem cacheGet_miss_semantics (s : KV) (k : String) :
    cacheGet s true k = .error () ∧
    (kvGet s k = none → cacheGet s false k = .ok "") ∧
    (∀ v, kvGet s k = some v → cacheGet s false k = .ok v) ∧
    (∀ decode encode setFails rows id,
      (patientGetByID s true decode encode setFails rows id).1 =
        .ok (rows.find? (fun r => r.id == id))) := by
  refine ⟨rfl, ?_, ?_, ?_⟩
  · intro h
    unfold cacheGet redisGet
    rw [h]
    rfl
  · intro v h
    unfold cacheGet redisGet
    rw [h]
    rfl
  · intro decode encode setFails rows id
    unfold patientGetByID
    cases h : rows.find? (fun r => r.id == id) <;> simp [cacheGet, redisGet, h]

/-- Witness for C5 at a concrete store and key. -/
theorem cacheGet_miss_semantics_witness :
    cacheGet [("k", "cached")] true "k" = .error () ∧
    (kvGet [("k", "cached")] "absent" = none ∧
      cacheGet [("k", "cached")] false "absent" = .ok "") ∧
    (kvGet [("k", "cached")] "k" = some "cached" ∧
      cacheGet [("k", "cached")] false "k" = .ok "cached") ∧
    (patientGetByID [("k", "cached")] true (fun _ => none) (fun _ => "e") false
      [⟨"DP-000001", "A", "B", "C", "1990-01-01"⟩] "DP-000001").1 =
      .ok ([⟨"DP-000001", "A", "B", "C", "1990-01-01"⟩].find?
        (fun r => r.id == "DP-000001")) := by
  refine ⟨(cacheGet_miss_semantics [("k", "cached")] "k").1,
    ⟨by decide, (cacheGet_miss_semantics [("k", "cached")] "absent").2.1 (by decide)⟩,
    ⟨by decide, (cacheGet_miss_semantics [("k", "cached")] "k").2.2.1 "cached" (by decide)⟩,
    (cacheGet_miss_semantics [("k", "cached")] "k").2.2.2 _ _ _ _ _⟩

/-- The retry loop around database.NewLock shared by the per-record
mutating operations: up to maxRetries SetNX attempts, breaking on the
first success.  Contention from other processes (which may change
between the fixed backoff sleeps) is an oracle: attempt i succeeds iff
avail i.  Returns whether the lock was obtained and how many NewLock
calls were made. -/
def retryAcquireFrom (avail : Nat → Bool) : Nat → Nat → Bool × Nat
  | _, 0 => (false, 0)
  | i, n + 1 =>
      if avail i then (true, 1)
      else
        let r := retryAcquireFrom avail (i + 1) n
        (r.1, r.2 + 1)

def retryAcquire (avail : Nat → Bool) (maxRetries : Nat) : Bool × Nat :=
  retryAcquireFrom avail 0 maxRetries

theorem retryAcquire_three_attempts (avail : Nat → Bool)
    (h : (retryAcquire avail 3).1 = false) : (retryAcquire avail 3).2 = 3 := by
  have h0 : avail 0 = false := by
    by_contra hc
    simp [retryAcquire, retryAcquireFrom, (by simpa using hc : avail 0 = true)] at h
  have h1 : avail 1 = false := by
    by_contra hc
    simp [retryAcquire, retryAcquireFrom, h0, (by simpa using hc : avail 1 = true)] at h
  have h2 : avail 2 = false := by
    by_contra hc
    simp [retryAcquire, retryAcquireFrom, h0, h1, (by simpa using hc : avail 2 = true)] at h
  simp [retryAcquire, retryAcquireFrom, h0, h1, h2]

/-- The lock-acquisition parameters an operation used: how many NewLock
calls it made, the cap on attempts, the backoff between attempts and the
TTL passed to NewLock, in seconds. -/
structure LockTrace where
  attempts : Nat
  maxAttempts : Nat
  backoffSec : Nat
  ttlSec : Nat
  deriving Repr, DecidableEq

/-- External-effect oracles for a mutating operation: lock availability
per attempt, the generated uuid lock token, whether the sequence query
fails, and whether each cache Delete / DeleteAll call fails. -/
structure MutEnv where
  avail : Nat → Bool
  token : String
  seqFails : Bool
  delFails : String → Bool
  delAllFails : String → Bool

/-- Result of a mutating repository operation. -/
inductive MutResult
  | ok (id : String)
  | okUnit
  | lockFailed
  | duplicate
  | doctorNotFound
  | seqFailed
  | persistFailed
  | invalidStatus
  | cacheDeleteFailed (key : String)
  | cacheDeleteAllFailed (pat : String)
  deriving Repr, DecidableEq

/-- Postgres LPAD(s, n, fill): extend on the left to length n; a string
already longer than n is truncated to its leftmost n characters. -/
def lpadChars (l : List Char) (n : Nat) (fill : Char) : List Char :=
  if n ≤ l.length then l.take n
  else List.replicate (n - l.length) fill ++ l

/-- The allocated id as the repositories build it:
SELECT ns || LPAD(nextval(seq)::TEXT, 6, (the zero character)). -/
def formatSeqID (ns : String) (counter : Nat) : String :=
  ns ++ "-" ++ String.mk (lpadChars (Nat.repr counter).toList 6 '0')

/-- Repository state for the patient entity: the patient table, the
last_value of patient_id_seq, and the shared lock and cache stores. -/
structure PatientState where
  rows : List PatientRow
  seq : Nat
  locks : KV
  cache : KV
  deriving Repr, DecidableEq

/-- The middle-name substitution of PatientRepository.Create. -/
def substMiddleName (mn : String) : String := if mn = "" then "N/A" else mn

/-- The creation lock key of PatientRepository.Create, built from the
natural-key tuple with the substituted middle name. -/
def patientCreateLockKey (p : PatientRow) : String :=
  "patient_lock:" ++ p.firstName ++ "_" ++ substMiddleName p.middleName ++ "_" ++
    p.lastName ++ "_" ++ p.dateOfBirth

/-- The per-record lock key used by Update / Delete / the cascade. -/
def patientLockKey (pid : String) : String := "patient_lock:" ++ pid

/-- The uniqueness pre-check of PatientRepository.Create: a first-match
query on the natural-key columns, with the substituted middle name. -/
def patientDupCheck (rows : List PatientRow) (p : PatientRow) : Bool :=
  rows.any (fun r => r.firstName == p.firstName &&
    r.middleName == substMiddleName p.middleName &&
    r.lastName == p.lastName && r.dateOfBirth == p.dateOfBirth)

/-- Primary-key conflict: the only way the modelled insert can fail. -/
def pkConflict (rows : List PatientRow) (nid : String) : Bool :=
  rows.any (fun r => r.id == nid)

/-- PatientRepository.Create: substitute the middle name, acquire the
natural-key lock (3 attempts, 2 s backoff, 10 s TTL), run the
uniqueness pre-check, draw the next sequence value, then insert and
invalidate the caches inside one transaction.  The inserted row keeps
the raw middle name: the substitution is applied only to the lock key
and the pre-check.  A failing insert triggers a sequence rollback
(setval to last_value - 1); a failing cache call inside the transaction
rolls the insert back but not the sequence advance.  The deferred
ReleaseLock runs on every exit path after acquisition. -/
def patientCreate (env : MutEnv) (st : PatientState) (p : PatientRow) :
    MutResult × PatientState × LockTrace :=
  let lockKey := patientCreateLockKey p
  let acq := retryAcquire env.avail 3
  let trace : LockTrace := ⟨acq.2, 3, 2, 10⟩
  if !acq.1 then (.lockFailed, st, trace)
  else
    let locks1 := kvSet st.locks lockKey env.token
    let finish := fun (r : MutResult) (st1 : PatientState) =>
      (r, { st1 with locks := (releaseLock st1.locks lockKey env.token).2 }, trace)
    if patientDupCheck st.rows p then
      finish .duplicate { st with locks := locks1 }
    else if env.seqFails then
      finish .seqFailed { st with locks := locks1 }
    else
      let seq1 := st.seq + 1
      let nid := formatSeqID "DP" seq1
      let row := { p with id := nid }
      if pkConflict st.rows nid then
        finish .persistFailed { st with locks := locks1, seq := seq1 - 1 }
      else if env.delFails (patientCacheKey nid) then
        finish (.cacheDeleteFailed (patientCacheKey nid))
          { st with locks := locks1, seq := seq1 }
      else if env.delAllFails "patients_cache" then
        finish (.cacheDeleteAllFailed "patients_cache")
          { st with locks := locks1, seq := seq1, cache := kvDel st.cache (patientCacheKey nid) }
      else
        finish (.ok nid)
          { st with rows := st.rows ++ [row], seq := seq1, locks := locks1, cache := kvDelMatching (kvDel st.cache (patientCacheKey nid)) "patients_cache" }

/-- The upsert of PatientRepository.Update: Save with an ON CONFLICT (id)
DO UPDATE clause over the mutable columns — replace the row with the
matching id, insert when absent. -/
def upsertPatient (rows : List PatientRow) (p : PatientRow) : List PatientRow :=
  if rows.any (fun r => r.id == p.id) then
    rows.map (fun r => if r.id == p.id then p else r)
  else rows ++ [p]

/-- PatientRepository.Update: acquire the primary-key lock (3 attempts,
2 s backoff, 10 s TTL), upsert, then invalidate the specific and
collection cache keys outside any transaction — so a failing cache call
is returned as an error after the write has persisted. -/
def patientUpdate (env : MutEnv) (st : PatientState) (p : PatientRow) :
    MutResult × PatientState × LockTrace :=
  let lockKey := patientLockKey p.id
  let acq := retryAcquire env.avail 3
  let trace : LockTrace := ⟨acq.2, 3, 2, 10⟩
  if !acq.1 then (.lockFailed, st, trace)
  else
    let locks1 := kvSet st.locks lockKey env.token
    let finish := fun (r : MutResult) (st1 : PatientState) =>
      (r, { st1 with locks := (releaseLock st1.locks lockKey env.token).2 }, trace)
    let rows1 := upsertPatient st.rows p
    if env.delFails (patientCacheKey p.id) then
      finish (.cacheDeleteFailed (patientCacheKey p.id))
        { st with rows := rows1, locks := locks1 }
    else if env.delAllFails "patients_cache" then
      finish (.cacheDeleteAllFailed "patients_cache")
        { st with rows := rows1, locks := locks1, cache := kvDel st.cache (patientCacheKey p.id) }
    else
      finish .okUnit
        { st with rows := rows1, locks := locks1, cache := kvDelMatching (kvDel st.cache (patientCacheKey p.id)) "patients_cache" }

/-- PatientRepository.Delete: acquire the primary-key lock, delete the
row, then invalidate the specific and collection cache keys outside any
transaction. -/
def patientDelete (env : MutEnv) (st : PatientState) (pid : String) :
    MutResult × PatientState × LockTrace :=
  let lockKey := patientLockKey pid
  let acq := retryAcquire env.avail 3
  let trace : LockTrace := ⟨acq.2, 3, 2, 10⟩
  if !acq.1 then (.lockFailed, st, trace)
  else
    let locks1 := kvSet st.locks lockKey env.token
    let finish := fun (r : MutResult) (st1 : PatientState) =>
      (r, { st1 with locks := (releaseLock st1.locks lockKey env.token).2 }, trace)
    let rows1 := st.rows.filter (fun r => r.id != pid)
    if env.delFails (patientCacheKey pid) then
      finish (.cacheDeleteFailed (patientCacheKey pid))
        { st with rows := rows1, locks := locks1 }
    else if env.delAllFails "patients_cache" then
      finish (.cacheDeleteAllFailed "patients_cache")
        { st with rows := rows1, locks := locks1, cache := kvDel st.cache (patientCacheKey pid) }
    else
      finish .okUnit
        { st with rows := rows1, locks := locks1, cache := kvDelMatching (kvDel st.cache (patientCacheKey pid)) "patients_cache" }

/-- After SetNX placed the token, the deferred ReleaseLock removes it. -/
theorem releaseLock_after_set (s : KV) (k v : String) :
    kvGet (releaseLock (kvSet s k v) k v).2 k = none := by
  unfold releaseLock
  rw [kvGet_kvSet_self]
  simpa using kvGet_kvDel_self (kvSet s k v) k

/-- An all-success environment: locks available, no failures. -/
def envOK : MutEnv :=
  { avail := fun _ => true, token := "tok", seqFails := false,
    delFails := fun _ => false, delAllFails := fun _ => false }

/-- C2: the claim fails on the code for an empty middle name.  The
uniqueness pre-check substitutes N/A for an empty middle name, but the
inserted row keeps the raw empty string, so a second Create with the
same natural-key fields finds no match against N/A, passes the
pre-check, and persists a second identical row with a fresh id — no
duplicate-entity error, two rows.  With a nonempty middle name the
pre-check works and the second call is rejected with one row left. -/
theorem patientCreate_emptyMiddleName_duplicate_bug :
    (patientCreate envOK ⟨[], 0, [], []⟩ ⟨"", "John", "", "Doe", "2000-01-01"⟩).1 =
      .ok "DP-000001" ∧
    (patientCreate envOK
      (patientCreate envOK ⟨[], 0, [], []⟩ ⟨"", "John", "", "Doe", "2000-01-01"⟩).2.1
      ⟨"", "John", "", "Doe", "2000-01-01"⟩).1 = .ok "DP-000002" ∧
    ((patientCreate envOK
      (patientCreate envOK ⟨[], 0, [], []⟩ ⟨"", "John", "", "Doe", "2000-01-01"⟩).2.1
      ⟨"", "John", "", "Doe", "2000-01-01"⟩).2.1.rows.filter
        (fun r => r.firstName == "John" && r.middleName == "" &&
          r.lastName == "Doe" && r.dateOfBirth == "2000-01-01")).length = 2 ∧
    (patientCreate envOK
      (patientCreate envOK ⟨[], 0, [], []⟩ ⟨"", "Jane", "Ann", "Doe", "2000-01-01"⟩).2.1
      ⟨"", "Jane", "Ann", "Doe", "2000-01-01"⟩).1 = .duplicate ∧
    (patientCreate envOK
      (patientCreate envOK ⟨[], 0, [], []⟩ ⟨"", "Jane", "Ann", "Doe", "2000-01-01"⟩).2.1
      ⟨"", "Jane", "Ann", "Doe", "2000-01-01"⟩).2.1.rows.length = 1 := by
  decide

/-- C3, counterexample: an Update whose backing-store write succeeds but
whose cache Delete fails returns an error — the cache failure is not
absorbed, contradicting the claim, while the write remains persisted. -/
theorem patientUpdate_cacheFailure_returns_error :
    (patientUpdate
      { envOK with delFails := fun k => k == "patient_cache:DP-000001" }
      ⟨[⟨"DP-000001", "John", "", "Doe", "2000-01-01"⟩], 1, [], []⟩
      ⟨"DP-000001", "John", "", "Smith", "2000-01-01"⟩).1 =
        .cacheDeleteFailed "patient_cache:DP-000001" ∧
    (patientUpdate
      { envOK with delFails := fun k => k == "patient_cache:DP-000001" }
      ⟨[⟨"DP-000001", "John", "", "Doe", "2000-01-01"⟩], 1, [], []⟩
      ⟨"DP-000001", "John", "", "Smith", "2000-01-01"⟩).2.1.rows =
        [⟨"DP-000001", "John", "", "Smith", "2000-01-01"⟩] := by
  decide

/-- C3, amended: the read paths (GetByID, GetAll) absorb every cache
failure and degrade to the backing store, but the mutation paths return
an error when a cache-invalidation call fails: for Update and Delete the
backing-store write has already persisted when the error is returned,
and for Create the cache call runs inside the insert transaction, so its
failure rolls the insert back while the sequence stays advanced. -/
theorem cacheFailure_read_absorbed_mutation_propagated :
    (∀ (cache : KV) decode encode setFails rows id,
      (patientGetByID cache true decode encode setFails rows id).1 =
        .ok (rows.find? (fun r => r.id == id))) ∧
    (∀ (cache : KV) decodeList encodeList setFails rows,
      (patientGetAll cache true decodeList encodeList setFails rows).1 = .ok rows) ∧
    (∀ env st p, (retryAcquire env.avail 3).1 = true →
      env.delFails (patientCacheKey p.id) = true →
      (patientUpdate env st p).1 = .cacheDeleteFailed (patientCacheKey p.id) ∧
      (patientUpdate env st p).2.1.rows = upsertPatient st.rows p) ∧
    (∀ env st pid, (retryAcquire env.avail 3).1 = true →
      env.delFails (patientCacheKey pid) = true →
      (patientDelete env st pid).1 = .cacheDeleteFailed (patientCacheKey pid) ∧
      (patientDelete env st pid).2.1.rows = st.rows.filter (fun r => r.id != pid)) ∧
    (∀ env st p, (retryAcquire env.avail 3).1 = true →
      patientDupCheck st.rows p = false → env.seqFails = false →
      pkConflict st.rows (formatSeqID "DP" (st.seq + 1)) = false →
      env.delFails (patientCacheKey (formatSeqID "DP" (st.seq + 1))) = true →
      (patientCreate env st p).1 =
        .cacheDeleteFailed (patientCacheKey (formatSeqID "DP" (st.seq + 1))) ∧
      (patientCreate env st p).2.1.rows = st.rows ∧
      (patientCreate env st p).2.1.seq = st.seq + 1) ∧
    (∀ env st p, (retryAcquire env.avail 3).1 = true →
      env.delFails (patientCacheKey p.id) = false →
      env.delAllFails "patients_cache" = true →
      (patientUpdate env st p).1 = .cacheDeleteAllFailed "patients_cache" ∧
      (patientUpdate env st p).2.1.rows = upsertPatient st.rows p) ∧
    (∀ env st pid, (retryAcquire env.avail 3).1 = true →
      env.delFails (patientCacheKey pid) = false →
      env.delAllFails "patients_cache" = true →
      (patientDelete env st pid).1 = .cacheDeleteAllFailed "patients_cache" ∧
      (patientDelete env st pid).2.1.rows = st.rows.filter (fun r => r.id != pid)) ∧
    (∀ env st p, (retryAcquire env.avail 3).1 = true →
      patientDupCheck st.rows p = false → env.seqFails = false →
      pkConflict st.rows (formatSeqID "DP" (st.seq + 1)) = false →
      env.delFails (patientCacheKey (formatSeqID "DP" (st.seq + 1))) = false →
      env.delAllFails "patients_cache" = true →
      (patientCreate env st p).1 = .cacheDeleteAllFailed "patients_cache" ∧
      (patientCreate env st p).2.1.rows = st.rows ∧
      (patientCreate env st p).2.1.seq = st.seq + 1) := by
  refine ⟨?_, ?_, ?_, ?_, ?_, ?_, ?_, ?_⟩
  · intro cache decode encode setFails rows id
    unfold patientGetByID
    cases h : rows.find? (fun r => r.id == id) <;> simp [cacheGet, redisGet, h]
  · intro cache decodeList encodeList setFails rows
    unfold patientGetAll
    simp [cacheGet, redisGet]
  · intro env st p hacq hdel
    unfold patientUpdate
    simp [hacq, hdel]
  · intro env st pid hacq hdel
    unfold patientDelete
    simp [hacq, hdel]
  · intro env st p hacq hdup hseq hpk hdel
    unfold patientCreate
    simp [hacq, hdup, hseq, hpk, hdel]
  · intro env st p hacq hdel hdelAll
    unfold patientUpdate
    simp [hacq, hdel, hdelAll]
  · intro env st pid hacq hdel hdelAll
    unfold patientDelete
    simp [hacq, hdel, hdelAll]
  · intro env st p hacq hdup hseq hpk hdel hdelAll
    unfold patientCreate
    simp [hacq, hdup, hseq, hpk, hdel, hdelAll]

/-- Witness for C3 at concrete inputs: a transport-error read returns
the stored row, an Update with a failing specific-key cache Delete
errors while the write persists, and an Update with a failing
collection DeleteAll errors while the write persists. -/
theorem cacheFailure_read_absorbed_mutation_propagated_witness :
    (patientGetByID [] true (fun _ => none) (fun _ => "e") false
      [⟨"DP-000001", "A", "B", "C", "1990-01-01"⟩] "DP-000001").1 =
      .ok ([⟨"DP-000001", "A", "B", "C", "1990-01-01"⟩].find?
        (fun r => r.id == "DP-000001")) ∧
    ((retryAcquire envOK.avail 3).1 = true ∧
      ({ envOK with delFails := fun k => k == "patient_cache:DP-000001" } :
        MutEnv).delFails (patientCacheKey "DP-000001") = true ∧
      (patientUpdate { envOK with delFails := fun k => k == "patient_cache:DP-000001" }
        ⟨[⟨"DP-000001", "John", "", "Doe", "2000-01-01"⟩], 1, [], []⟩
        ⟨"DP-000001", "John", "", "Smith", "2000-01-01"⟩).1 =
          .cacheDeleteFailed (patientCacheKey "DP-000001") ∧
      (patientUpdate { envOK with delFails := fun k => k == "patient_cache:DP-000001" }
        ⟨[⟨"DP-000001", "John", "", "Doe", "2000-01-01"⟩], 1, [], []⟩
        ⟨"DP-000001", "John", "", "Smith", "2000-01-01"⟩).2.1.rows =
          upsertPatient [⟨"DP-000001", "John", "", "Doe", "2000-01-01"⟩]
            ⟨"DP-000001", "John", "", "Smith", "2000-01-01"⟩) ∧
    ((patientUpdate { envOK with delAllFails := fun s => s == "patients_cache" }
        ⟨[⟨"DP-000001", "John", "", "Doe", "2000-01-01"⟩], 1, [], []⟩
        ⟨"DP-000001", "John", "", "Smith", "2000-01-01"⟩).1 =
          .cacheDeleteAllFailed "patients_cache" ∧
      (patientUpdate { envOK with delAllFails := fun s => s == "patients_cache" }
        ⟨[⟨"DP-000001", "John", "", "Doe", "2000-01-01"⟩], 1, [], []⟩
        ⟨"DP-000001", "John", "", "Smith", "2000-01-01"⟩).2.1.rows =
          upsertPatient [⟨"DP-000001", "John", "", "Doe", "2000-01-01"⟩]
            ⟨"DP-000001", "John", "", "Smith", "2000-01-01"⟩) := by
  refine ⟨cacheFailure_read_absorbed_mutation_propagated.1 _ _ _ _ _ _,
    ⟨by decide, by decide, ?_, ?_⟩, ?_, ?_⟩
  · exact (cacheFailure_read_absorbed_mutation_propagated.2.2.1 _ _ _
      (by decide) (by decide)).1
  · exact (cacheFailure_read_absorbed_mutation_propagated.2.2.1 _ _ _
      (by decide) (by decide)).2
  · exact (cacheFailure_read_absorbed_mutation_propagated.2.2.2.2.2.1 _ _ _
      (by decide) (by decide) (by decide)).1
  · exact (cacheFailure_read_absorbed_mutation_propagated.2.2.2.2.2.1 _ _ _
      (by decide) (by decide) (by decide)).2

/-- A row of the appointment table.  The created_at column and the
preloaded associations never influence a branch and are omitted. -/
structure ApptRow where
  id : Nat
  patientID : String
  doctorID : String
  dateTime : String
  status : String
  deriving Repr, DecidableEq

/-- Repository state for the appointment entity. -/
structure ApptState where
  appts : List ApptRow
  locks : KV
  cache : KV
  deriving Repr, DecidableEq

/-- getAppointmentCacheKey. -/
def apptCacheKey (pid : String) (aid : Nat) : String :=
  "appointment_cache:" ++ pid ++ "_" ++ Nat.repr aid

/-- The appointment lock key: appointment_lock:patientID_id. -/
def apptLockKey (pid : String) (aid : Nat) : String :=
  "appointment_lock:" ++ pid ++ "_" ++ Nat.repr aid

/-- The status whitelist checked by AppointmentRepository.Create and
Update: scheduled, fulfilled or cancelled. -/
def validStatus (s : String) : Bool :=
  s == "scheduled" || s == "fulfilled" || s == "cancelled"

/-- AppointmentRepository.Create: acquire the lock (3 attempts, 2 s
backoff, 10 s TTL), validate the status after acquisition and before
any write, insert, then invalidate the appointment specific and
collection keys and the parent patient specific and collection keys,
all outside any transaction. -/
def appointmentCreate (env : MutEnv) (st : ApptState) (a : ApptRow) :
    MutResult × ApptState × LockTrace :=
  let lockKey := apptLockKey a.patientID a.id
  let acq := retryAcquire env.avail 3
  let trace : LockTrace := ⟨acq.2, 3, 2, 10⟩
  if !acq.1 then (.lockFailed, st, trace)
  else
    let locks1 := kvSet st.locks lockKey env.token
    let finish := fun (r : MutResult) (st1 : ApptState) =>
      (r, { st1 with locks := (releaseLock st1.locks lockKey env.token).2 }, trace)
    if !validStatus a.status then
      finish .invalidStatus { st with locks := locks1 }
    else
      let appts1 := st.appts ++ [a]
      if env.delFails (apptCacheKey a.patientID a.id) then
        finish (.cacheDeleteFailed (apptCacheKey a.patientID a.id)) { st with appts := appts1, locks := locks1 }
      else
        let c1 := kvDel st.cache (apptCacheKey a.patientID a.id)
        if env.delAllFails "appointments_cache" then
          finish (.cacheDeleteAllFailed "appointments_cache") { st with appts := appts1, locks := locks1, cache := c1 }
        else
          let c2 := kvDelMatching c1 "appointments_cache"
          if env.delFails (patientCacheKey a.patientID) then
            finish (.cacheDeleteFailed (patientCacheKey a.patientID)) { st with appts := appts1, locks := locks1, cache := c2 }
          else
            let c3 := kvDel c2 (patientCacheKey a.patientID)
            if env.delAllFails "patients_cache" then
              finish (.cacheDeleteAllFailed "patients_cache") { st with appts := appts1, locks := locks1, cache := c3 }
            else
              finish .okUnit { st with appts := appts1, locks := locks1, cache := kvDelMatching c3 "patients_cache" }

/-- AppointmentRepository.Update: same lock and status check, then a
Save that updates the row with the matching primary key, then the same
four cache invalidations. -/
def appointmentUpdate (env : MutEnv) (st : ApptState) (a : ApptRow) :
    MutResult × ApptState × LockTrace :=
  let lockKey := apptLockKey a.patientID a.id
  let acq := retryAcquire env.avail 3
  let trace : LockTrace := ⟨acq.2, 3, 2, 10⟩
  if !acq.1 then (.lockFailed, st, trace)
  else
    let locks1 := kvSet st.locks lockKey env.token
    let finish := fun (r : MutResult) (st1 : ApptState) =>
      (r, { st1 with locks := (releaseLock st1.locks lockKey env.token).2 }, trace)
    if !validStatus a.status then
      finish .invalidStatus { st with locks := locks1 }
    else
      let appts1 := st.appts.map (fun r => if r.id == a.id then a else r)
      if env.delFails (apptCacheKey a.patientID a.id) then
        finish (.cacheDeleteFailed (apptCacheKey a.patientID a.id)) { st with appts := appts1, locks := locks1 }
      else
        let c1 := kvDel st.cache (apptCacheKey a.patientID a.id)
        if env.delAllFails "appointments_cache" then
          finish (.cacheDeleteAllFailed "appointments_cache") { st with appts := appts1, locks := locks1, cache := c1 }
        else
          let c2 := kvDelMatching c1 "appointments_cache"
          if env.delFails (patientCacheKey a.patientID) then
            finish (.cacheDeleteFailed (patientCacheKey a.patientID)) { st with appts := appts1, locks := locks1, cache := c2 }
          else
            let c3 := kvDel c2 (patientCacheKey a.patientID)
            if env.delAllFails "patients_cache" then
              finish (.cacheDeleteAllFailed "patients_cache") { st with appts := appts1, locks := locks1, cache := c3 }
            else
              finish .okUnit { st with appts := appts1, locks := locks1, cache := kvDelMatching c3 "patients_cache" }

/-- C10: an appointment whose status is not scheduled, fulfilled or
cancelled is rejected by Create and Update with an invalid-status error
and nothing is written: the table and the cache are unchanged, and the
check runs after lock acquisition (a lock failure is reported as such,
before any status inspection) and before any write. -/
theorem appointment_invalid_status_rejected (env : MutEnv) (st : ApptState) (a : ApptRow) :
    ((retryAcquire env.avail 3).1 = false →
      (appointmentCreate env st a).1 = .lockFailed ∧
      (appointmentCreate env st a).2.1 = st ∧
      (appointmentUpdate env st a).1 = .lockFailed ∧
      (appointmentUpdate env st a).2.1 = st) ∧
    ((retryAcquire env.avail 3).1 = true → validStatus a.status = false →
      (appointmentCreate env st a).1 = .invalidStatus ∧
      (appointmentCreate env st a).2.1.appts = st.appts ∧
      (appointmentCreate env st a).2.1.cache = st.cache ∧
      kvGet (appointmentCreate env st a).2.1.locks (apptLockKey a.patientID a.id) = none ∧
      (appointmentUpdate env st a).1 = .invalidStatus ∧
      (appointmentUpdate env st a).2.1.appts = st.appts ∧
      (appointmentUpdate env st a).2.1.cache = st.cache ∧
      kvGet (appointmentUpdate env st a).2.1.locks (apptLockKey a.patientID a.id) = none) := by
  constructor
  · intro hfail
    unfold appointmentCreate appointmentUpdate
    simp [hfail]
  · intro hacq hst
    unfold appointmentCreate appointmentUpdate
    simp [hacq, hst, releaseLock_after_set]

/-- Witness for C10: status pending is rejected by both operations at a
concrete state, and with an unavailable lock the lock error wins. -/
theorem appointment_invalid_status_rejected_witness :
    ((retryAcquire (fun _ => false) 3).1 = false ∧
      (appointmentCreate { envOK with avail := fun _ => false }
        ⟨[], [], []⟩ ⟨7, "DP-000001", "DR-000001", "2025-01-01T10:00", "pending"⟩).1 =
        .lockFailed) ∧
    ((retryAcquire envOK.avail 3).1 = true ∧
      validStatus "pending" = false ∧
      (appointmentCreate envOK ⟨[], [], []⟩
        ⟨7, "DP-000001", "DR-000001", "2025-01-01T10:00", "pending"⟩).1 = .invalidStatus ∧
      (appointmentCreate envOK ⟨[], [], []⟩
        ⟨7, "DP-000001", "DR-000001", "2025-01-01T10:00", "pending"⟩).2.1.appts = [] ∧
      (appointmentUpdate envOK ⟨[], [], []⟩
        ⟨7, "DP-000001", "DR-000001", "2025-01-01T10:00", "pending"⟩).1 = .invalidStatus) := by
  have hlock := (appointment_invalid_status_rejected { envOK with avail := fun _ => false }
    ⟨[], [], []⟩ ⟨7, "DP-000001", "DR-000001", "2025-01-01T10:00", "pending"⟩).1 (by decide)
  have hst := (appointment_invalid_status_rejected envOK ⟨[], [], []⟩
    ⟨7, "DP-000001", "DR-000001", "2025-01-01T10:00", "pending"⟩).2 (by decide) (by decide)
  exact ⟨⟨by decide, hlock.1⟩, ⟨by decide, by decide, hst.1, hst.2.1, hst.2.2.2.2.1⟩⟩

/-- A row of the billing table.  Monetary float64 columns are modelled
as rationals; created_at and the preloaded associations are omitted. -/
structure Billing where
  billingID : String
  patientID : String
  doctorID : String
  procedure : String
  billingAmount : ℚ
  paidCashAmount : ℚ
  paidInsuranceAmount : ℚ
  balance : ℚ
  totalReceived : ℚ
  deriving Repr, DecidableEq

/-- Repository state for the billing entity: the billing table, the ids
of the doctor table (only existence is checked), the last_value of
billing_id_seq, and the shared stores. -/
structure BillingState where
  billings : List Billing
  doctors : List String
  seq : Nat
  locks : KV
  cache : KV
  deriving Repr, DecidableEq

/-- getBillingCacheKey. -/
def billingCacheKey (bid : String) : String := "billing_cache:" ++ bid

/-- The recomputation BillingRepository.Create and Update perform before
persisting, overwriting whatever the caller supplied in Balance and
TotalReceived. -/
def recomputeBilling (b : Billing) : Billing :=
  { b with balance := b.billingAmount - (b.paidCashAmount + b.paidInsuranceAmount),
           totalReceived := b.paidCashAmount + b.paidInsuranceAmount }

/-- BillingRepository.Create: acquire the lock on the caller-supplied
billing id (3 attempts, 2 s backoff, 10 s TTL), check the doctor
exists, draw the next PB sequence value, recompute balance and
total_received, then insert and invalidate caches inside one
transaction; a failing insert rolls the sequence back, and a failing
cache call rolls the insert back (earlier cache deletions stay
applied, the sequence advance does not roll back). -/
def billingCreate (env : MutEnv) (st : BillingState) (b : Billing) :
    MutResult × BillingState × LockTrace :=
  let lockKey := "billing_lock:" ++ b.billingID
  let acq := retryAcquire env.avail 3
  let trace : LockTrace := ⟨acq.2, 3, 2, 10⟩
  if !acq.1 then (.lockFailed, st, trace)
  else
    let locks1 := kvSet st.locks lockKey env.token
    let finish := fun (r : MutResult) (st1 : BillingState) =>
      (r, { st1 with locks := (releaseLock st1.locks lockKey env.token).2 }, trace)
    if !st.doctors.contains b.doctorID then
      finish .doctorNotFound { st with locks := locks1 }
    else if env.seqFails then
      finish .seqFailed { st with locks := locks1 }
    else
      let seq1 := st.seq + 1
      let nid := formatSeqID "PB" seq1
      let row := recomputeBilling { b with billingID := nid }
      if st.billings.any (fun r => r.billingID == nid) then
        finish .persistFailed { st with locks := locks1, seq := seq1 - 1 }
      else if env.delFails (billingCacheKey nid) then
        finish (.cacheDeleteFailed (billingCacheKey nid)) { st with locks := locks1, seq := seq1 }
      else
        let c1 := kvDel st.cache (billingCacheKey nid)
        if env.delAllFails "billings_cache" then
          finish (.cacheDeleteAllFailed "billings_cache") { st with locks := locks1, seq := seq1, cache := c1 }
        else
          let c2 := kvDelMatching c1 "billings_cache"
          if env.delFails (patientCacheKey b.patientID) then
            finish (.cacheDeleteFailed (patientCacheKey b.patientID)) { st with locks := locks1, seq := seq1, cache := c2 }
          else
            let c3 := kvDel c2 (patientCacheKey b.patientID)
            if env.delAllFails "patients_cache" then
              finish (.cacheDeleteAllFailed "patients_cache") { st with locks := locks1, seq := seq1, cache := c3 }
            else
              finish (.ok nid) { st with billings := st.billings ++ [row], locks := locks1, seq := seq1, cache := kvDelMatching c3 "patients_cache" }

/-- BillingRepository.Update: acquire the lock on the billing id, check
the doctor exists, recompute balance and total_received, Save (an
update of the row with the matching primary key), then run the four
cache invalidations outside any transaction. -/
def billingUpdate (env : MutEnv) (st : BillingState) (b : Billing) :
    MutResult × BillingState × LockTrace :=
  let lockKey := "billing_lock:" ++ b.billingID
  let acq := retryAcquire env.avail 3
  let trace : LockTrace := ⟨acq.2, 3, 2, 10⟩
  if !acq.1 then (.lockFailed, st, trace)
  else
    let locks1 := kvSet st.locks lockKey env.token
    let finish := fun (r : MutResult) (st1 : BillingState) =>
      (r, { st1 with locks := (releaseLock st1.locks lockKey env.token).2 }, trace)
    if !st.doctors.contains b.doctorID then
      finish .doctorNotFound { st with locks := locks1 }
    else
      let row := recomputeBilling b
      let rows1 := st.billings.map (fun r => if r.billingID == b.billingID then row else r)
      if env.delFails (billingCacheKey b.billingID) then
        finish (.cacheDeleteFailed (billingCacheKey b.billingID)) { st with billings := rows1, locks := locks1 }
      else
        let c1 := kvDel st.cache (billingCacheKey b.billingID)
        if env.delAllFails "billings_cache" then
          finish (.cacheDeleteAllFailed "billings_cache") { st with billings := rows1, locks := locks1, cache := c1 }
        else
          let c2 := kvDelMatching c1 "billings_cache"
          if env.delFails (patientCacheKey b.patientID) then
            finish (.cacheDeleteFailed (patientCacheKey b.patientID)) { st with billings := rows1, locks := locks1, cache := c2 }
          else
            let c3 := kvDel c2 (patientCacheKey b.patientID)
            if env.delAllFails "patients_cache" then
              finish (.cacheDeleteAllFailed "patients_cache") { st with billings := rows1, locks := locks1, cache := c3 }
            else
              finish .okUnit { st with billings := rows1, locks := locks1, cache := kvDelMatching c3 "patients_cache" }

/-- The relation the claim asserts of a persisted billing row relative
to the amounts the caller supplied. -/
def balOK (b r : Billing) : Prop :=
  r.balance = b.billingAmount - (b.paidCashAmount + b.paidInsuranceAmount) ∧
  r.totalReceived = b.paidCashAmount + b.paidInsuranceAmount

/-- C9: a billing Create or Update that succeeds persists a record with
Balance equal to BillingAmount minus the sum of the paid amounts and
TotalReceived equal to that sum, whatever Balance and TotalReceived the
caller supplied: the repository recomputes both fields before
persisting. -/
theorem billing_balance_recomputed (env : MutEnv) (st : BillingState) (b : Billing) :
    (∀ bid, (billingCreate env st b).1 = .ok bid →
      ∃ r, (billingCreate env st b).2.1.billings = st.billings ++ [r] ∧
        r.billingID = bid ∧ balOK b r) ∧
    ((billingUpdate env st b).1 = .okUnit →
      ∀ r ∈ (billingUpdate env st b).2.1.billings,
        r.billingID = b.billingID → balOK b r) := by
  constructor
  · intro bid hok
    by_cases h1 : (retryAcquire env.avail 3).1
    case neg => unfold billingCreate at hok; simp [h1] at hok
    by_cases h2 : b.doctorID ∈ st.doctors
    case neg => unfold billingCreate at hok; simp [h1, h2] at hok
    by_cases h3 : env.seqFails
    case pos => unfold billingCreate at hok; simp [h1, h2, h3] at hok
    by_cases h4 : ∃ x ∈ st.billings, x.billingID = formatSeqID "PB" (st.seq + 1)
    case pos => unfold billingCreate at hok; simp [h1, h2, h3, h4] at hok
    by_cases h5 : env.delFails (billingCacheKey (formatSeqID "PB" (st.seq + 1)))
    case pos => unfold billingCreate at hok; simp [h1, h2, h3, h4, h5] at hok
    by_cases h6 : env.delAllFails "billings_cache"
    case pos => unfold billingCreate at hok; simp [h1, h2, h3, h4, h5, h6] at hok
    by_cases h7 : env.delFails (patientCacheKey b.patientID)
    case pos => unfold billingCreate at hok; simp [h1, h2, h3, h4, h5, h6, h7] at hok
    by_cases h8 : env.delAllFails "patients_cache"
    case pos => unfold billingCreate at hok; simp [h1, h2, h3, h4, h5, h6, h7, h8] at hok
    have hbid : bid = formatSeqID "PB" (st.seq + 1) := by
      unfold billingCreate at hok
      simp [h1, h2, h3, h4, h5, h6, h7, h8] at hok
      exact hok.symm
    refine ⟨recomputeBilling { b with billingID := formatSeqID "PB" (st.seq + 1) }, ?_, ?_, ?_, ?_⟩
    · unfold billingCreate
      simp [h1, h2, h3, h4, h5, h6, h7, h8]
    · simp [recomputeBilling, hbid]
    · simp [recomputeBilling]
    · simp [recomputeBilling]
  · intro hok r hr hrid
    by_cases h1 : (retryAcquire env.avail 3).1
    case neg => unfold billingUpdate at hok; simp [h1] at hok
    by_cases h2 : b.doctorID ∈ st.doctors
    case neg => unfold billingUpdate at hok; simp [h1, h2] at hok
    by_cases h5 : env.delFails (billingCacheKey b.billingID)
    case pos => unfold billingUpdate at hok; simp [h1, h2, h5] at hok
    by_cases h6 : env.delAllFails "billings_cache"
    case pos => unfold billingUpdate at hok; simp [h1, h2, h5, h6] at hok
    by_cases h7 : env.delFails (patientCacheKey b.patientID)
    case pos => unfold billingUpdate at hok; simp [h1, h2, h5, h6, h7] at hok
    by_cases h8 : env.delAllFails "patients_cache"
    case pos => unfold billingUpdate at hok; simp [h1, h2, h5, h6, h7, h8] at hok
    unfold billingUpdate at hr
    simp [h1, h2, h5, h6, h7, h8] at hr
    rcases hr with ⟨r0, hr0, heq⟩
    by_cases hid : r0.billingID = b.billingID
    · rw [if_pos hid] at heq
      rw [← heq]
      exact ⟨by simp [recomputeBilling], by simp [recomputeBilling]⟩
    · rw [if_neg hid] at heq
      rw [← heq] at hrid
      exact absurd hrid hid

/-- Witness for C9: a concrete Create and Update with junk caller
values in Balance and TotalReceived. -/
theorem billing_balance_recomputed_witness :
    ((billingCreate envOK ⟨[], ["DR-000001"], 0, [], []⟩
      ⟨"", "DP-000001", "DR-000001", "cleaning", 100, 30, 20, 999, 777⟩).1 =
        .ok "PB-000001" ∧
      ∃ r, (billingCreate envOK ⟨[], ["DR-000001"], 0, [], []⟩
        ⟨"", "DP-000001", "DR-000001", "cleaning", 100, 30, 20, 999, 777⟩).2.1.billings =
          [] ++ [r] ∧ r.billingID = "PB-000001" ∧
        balOK ⟨"", "DP-000001", "DR-000001", "cleaning", 100, 30, 20, 999, 777⟩ r) ∧
    ((billingUpdate envOK
      ⟨[⟨"PB-000001", "DP-000001", "DR-000001", "cleaning", 100, 30, 20, 50, 50⟩],
        ["DR-000001"], 1, [], []⟩
      ⟨"PB-000001", "DP-000001", "DR-000001", "cleaning", 200, 30, 20, 999, 777⟩).1 =
        .okUnit ∧
      ∀ r ∈ (billingUpdate envOK
        ⟨[⟨"PB-000001", "DP-000001", "DR-000001", "cleaning", 100, 30, 20, 50, 50⟩],
          ["DR-000001"], 1, [], []⟩
        ⟨"PB-000001", "DP-000001", "DR-000001", "cleaning", 200, 30, 20, 999, 777⟩).2.1.billings,
        r.billingID = "PB-000001" →
        balOK ⟨"PB-000001", "DP-000001", "DR-000001", "cleaning", 200, 30, 20, 999, 777⟩ r) := by
  refine ⟨⟨by decide, ?_⟩, ⟨by decide, ?_⟩⟩
  · exact (billing_balance_recomputed envOK ⟨[], ["DR-000001"], 0, [], []⟩
      ⟨"", "DP-000001", "DR-000001", "cleaning", 100, 30, 20, 999, 777⟩).1
      "PB-000001" (by decide)
  · exact (billing_balance_recomputed envOK
      ⟨[⟨"PB-000001", "DP-000001", "DR-000001", "cleaning", 100, 30, 20, 50, 50⟩],
        ["DR-000001"], 1, [], []⟩
      ⟨"PB-000001", "DP-000001", "DR-000001", "cleaning", 200, 30, 20, 999, 777⟩).2
      (by decide)

/-- A row of the emergency_contact table (name, phone and relationship
never influence a branch of the cascade and are omitted). -/
structure ECRow where
  id : Nat
  patientID : String
  deriving Repr, DecidableEq

/-- A row of the examination table (report and created_at omitted). -/
structure ExamRow where
  id : Nat
  patientID : String
  deriving Repr, DecidableEq

/-- A row of the treatment_plan table (plan and created_at omitted). -/
structure TPRow where
  id : Nat
  patientID : String
  deriving Repr, DecidableEq

/-- getEmergencyContactCacheKey. -/
def ecCacheKey (pid : String) (i : Nat) : String :=
  "emergency_contact_cache:" ++ pid ++ "_" ++ Nat.repr i

/-- getExaminationCacheKey. -/
def examCacheKey (pid : String) (i : Nat) : String :=
  "examination_cache:" ++ pid ++ ":" ++ Nat.repr i

/-- getTreatmentPlanCacheKey. -/
def tpCacheKey (pid : String) (i : Nat) : String :=
  "treatment_plan_cache:" ++ pid ++ ":" ++ Nat.repr i

/-- The state the cascading delete touches: the root patient table, the
five dependent tables, and the shared lock and cache stores. -/
structure AggState where
  patients : List PatientRow
  ecs : List ECRow
  exams : List ExamRow
  billings : List Billing
  tps : List TPRow
  appts : List ApptRow
  locks : KV
  cache : KV
  deriving Repr, DecidableEq

/-- PatientRepository.DeletePatientAndRelated: acquire the aggregate
lock with a single NewLock call (no retry loop, no backoff) and a
one-minute TTL; then, in one backing-store transaction: enumerate each
dependent type for the root id and delete the specific cache key of
each enumerated row, bulk-delete the five dependent row sets and the
root row, delete the specific cache key of the root, and run DeleteAll
for the root collection key and the collection key of each dependent
type.  The
modelled effects are infallible, so the call succeeds whenever the lock
is obtained; the transaction makes the row deletions one atomic state
change.  The deferred ReleaseLock runs before returning. -/
def deletePatientAndRelated (env : MutEnv) (st : AggState) (pid : String) :
    MutResult × AggState × LockTrace :=
  let lockKey := patientLockKey pid
  let trace : LockTrace := ⟨1, 1, 0, 60⟩
  if !(env.avail 0) then (.lockFailed, st, trace)
  else
    let locks1 := kvSet st.locks lockKey env.token
    let ecKeys := (st.ecs.filter (fun e => e.patientID == pid)).map (fun e => ecCacheKey e.patientID e.id)
    let examKeys := (st.exams.filter (fun e => e.patientID == pid)).map (fun e => examCacheKey e.patientID e.id)
    let billKeys := (st.billings.filter (fun e => e.patientID == pid)).map (fun e => billingCacheKey e.billingID)
    let tpKeys := (st.tps.filter (fun e => e.patientID == pid)).map (fun e => tpCacheKey e.patientID e.id)
    let apptKeys := (st.appts.filter (fun e => e.patientID == pid)).map (fun e => apptCacheKey e.patientID e.id)
    let cache1 := kvDelKeys st.cache
      (ecKeys ++ (examKeys ++ (billKeys ++ (tpKeys ++ (apptKeys ++ [patientCacheKey pid])))))
    let cache2 := kvDelMatchingAll cache1
      ["patients_cache", "appointments_cache", "emergency_contacts_cache", "billings_cache", "examinations_cache", "treatment_plans_cache"]
    (.okUnit,
      { patients := st.patients.filter (fun r => r.id != pid),
        ecs := st.ecs.filter (fun e => e.patientID != pid),
        exams := st.exams.filter (fun e => e.patientID != pid),
        billings := st.billings.filter (fun e => e.patientID != pid),
        tps := st.tps.filter (fun e => e.patientID != pid),
        appts := st.appts.filter (fun e => e.patientID != pid),
        locks := (releaseLock locks1 lockKey env.token).2,
        cache := cache2 },
      trace)

/-- C1: when the aggregate lock is obtained, DeletePatientAndRelated
succeeds, its one transaction leaves zero rows for the root id in the
patient table and in all five dependent tables, and afterwards the
specific key of the root, the root collection key, the specific key of
every dependent row that belonged to the root, and the collection key
of every dependent type all miss. -/
theorem deletePatientAndRelated_clears_rows_and_cache
    (env : MutEnv) (st : AggState) (pid : String) (hacq : env.avail 0 = true) :
    (deletePatientAndRelated env st pid).1 = .okUnit ∧
    (∀ r ∈ (deletePatientAndRelated env st pid).2.1.patients, r.id ≠ pid) ∧
    (∀ e ∈ (deletePatientAndRelated env st pid).2.1.ecs, e.patientID ≠ pid) ∧
    (∀ e ∈ (deletePatientAndRelated env st pid).2.1.exams, e.patientID ≠ pid) ∧
    (∀ e ∈ (deletePatientAndRelated env st pid).2.1.billings, e.patientID ≠ pid) ∧
    (∀ e ∈ (deletePatientAndRelated env st pid).2.1.tps, e.patientID ≠ pid) ∧
    (∀ e ∈ (deletePatientAndRelated env st pid).2.1.appts, e.patientID ≠ pid) ∧
    kvGet (deletePatientAndRelated env st pid).2.1.cache (patientCacheKey pid) = none ∧
    (∀ e ∈ st.ecs, e.patientID = pid →
      kvGet (deletePatientAndRelated env st pid).2.1.cache (ecCacheKey e.patientID e.id) = none) ∧
    (∀ e ∈ st.exams, e.patientID = pid →
      kvGet (deletePatientAndRelated env st pid).2.1.cache (examCacheKey e.patientID e.id) = none) ∧
    (∀ e ∈ st.billings, e.patientID = pid →
      kvGet (deletePatientAndRelated env st pid).2.1.cache (billingCacheKey e.billingID) = none) ∧
    (∀ e ∈ st.tps, e.patientID = pid →
      kvGet (deletePatientAndRelated env st pid).2.1.cache (tpCacheKey e.patientID e.id) = none) ∧
    (∀ e ∈ st.appts, e.patientID = pid →
      kvGet (deletePatientAndRelated env st pid).2.1.cache (apptCacheKey e.patientID e.id) = none) ∧
    kvGet (deletePatientAndRelated env st pid).2.1.cache "patients_cache" = none ∧
    kvGet (deletePatientAndRelated env st pid).2.1.cache "appointments_cache" = none ∧
    kvGet (deletePatientAndRelated env st pid).2.1.cache "emergency_contacts_cache" = none ∧
    kvGet (deletePatientAndRelated env st pid).2.1.cache "billings_cache" = none ∧
    kvGet (deletePatientAndRelated env st pid).2.1.cache "examinations_cache" = none ∧
    kvGet (deletePatientAndRelated env st pid).2.1.cache "treatment_plans_cache" = none := by
  unfold deletePatientAndRelated
  simp only [hacq, Bool.not_true, Bool.false_eq_true, if_false, ite_false]
  refine ⟨by trivial, ?_, ?_, ?_, ?_, ?_, ?_, ?_, ?_, ?_, ?_, ?_, ?_, ?_, ?_, ?_, ?_, ?_, ?_⟩
  · intro r hr
    simpa [bne] using (List.mem_filter.mp hr).2
  · intro e he
    simpa [bne] using (List.mem_filter.mp he).2
  · intro e he
    simpa [bne] using (List.mem_filter.mp he).2
  · intro e he
    simpa [bne] using (List.mem_filter.mp he).2
  · intro e he
    simpa [bne] using (List.mem_filter.mp he).2
  · intro e he
    simpa [bne] using (List.mem_filter.mp he).2
  · refine kvGet_kvDelMatchingAll_none _ _ _ (kvGet_kvDelKeys_of_mem _ _ _ ?_)
    simp
  · intro e he hpe
    refine kvGet_kvDelMatchingAll_none _ _ _ (kvGet_kvDelKeys_of_mem _ _ _ ?_)
    simp only [List.mem_append, List.mem_map, List.mem_filter]
    exact Or.inl ⟨e, ⟨he, by simp [hpe]⟩, rfl⟩
  · intro e he hpe
    refine kvGet_kvDelMatchingAll_none _ _ _ (kvGet_kvDelKeys_of_mem _ _ _ ?_)
    simp only [List.mem_append, List.mem_map, List.mem_filter]
    exact Or.inr (Or.inl ⟨e, ⟨he, by simp [hpe]⟩, rfl⟩)
  · intro e he hpe
    refine kvGet_kvDelMatchingAll_none _ _ _ (kvGet_kvDelKeys_of_mem _ _ _ ?_)
    simp only [List.mem_append, List.mem_map, List.mem_filter]
    exact Or.inr (Or.inr (Or.inl ⟨e, ⟨he, by simp [hpe]⟩, rfl⟩))
  · intro e he hpe
    refine kvGet_kvDelMatchingAll_none _ _ _ (kvGet_kvDelKeys_of_mem _ _ _ ?_)
    simp only [List.mem_append, List.mem_map, List.mem_filter]
    exact Or.inr (Or.inr (Or.inr (Or.inl ⟨e, ⟨he, by simp [hpe]⟩, rfl⟩)))
  · intro e he hpe
    refine kvGet_kvDelMatchingAll_none _ _ _ (kvGet_kvDelKeys_of_mem _ _ _ ?_)
    simp only [List.mem_append, List.mem_map, List.mem_filter]
    exact Or.inr (Or.inr (Or.inr (Or.inr (Or.inl ⟨e, ⟨he, by simp [hpe]⟩, rfl⟩))))
  · exact kvGet_kvDelMatchingAll_of_mem _ _ _ (by decide) (by simp)
  · exact kvGet_kvDelMatchingAll_of_mem _ _ _ (by decide) (by simp)
  · exact kvGet_kvDelMatchingAll_of_mem _ _ _ (by decide) (by simp)
  · exact kvGet_kvDelMatchingAll_of_mem _ _ _ (by decide) (by simp)
  · exact kvGet_kvDelMatchingAll_of_mem _ _ _ (by decide) (by simp)
  · exact kvGet_kvDelMatchingAll_of_mem _ _ _ (by decide) (by simp)

/-- Witness for C1 at a concrete aggregate with one row of each
dependent type and a populated cache. -/
theorem deletePatientAndRelated_clears_rows_and_cache_witness :
    envOK.avail 0 = true ∧
    (deletePatientAndRelated envOK
      ⟨[⟨"DP-000001", "John", "", "Doe", "2000-01-01"⟩], [⟨1, "DP-000001"⟩],
        [⟨2, "DP-000001"⟩],
        [⟨"PB-000001", "DP-000001", "DR-000001", "cleaning", 100, 30, 20, 50, 50⟩],
        [⟨3, "DP-000001"⟩], [⟨4, "DP-000001", "DR-000001", "t", "scheduled"⟩], [],
        [("patient_cache:DP-000001", "x"), ("patients_cache", "y"),
          ("emergency_contact_cache:DP-000001_1", "z"), ("appointments_cache", "w")]⟩
      "DP-000001").1 = .okUnit ∧
    (∀ r ∈ (deletePatientAndRelated envOK
      ⟨[⟨"DP-000001", "John", "", "Doe", "2000-01-01"⟩], [⟨1, "DP-000001"⟩],
        [⟨2, "DP-000001"⟩],
        [⟨"PB-000001", "DP-000001", "DR-000001", "cleaning", 100, 30, 20, 50, 50⟩],
        [⟨3, "DP-000001"⟩], [⟨4, "DP-000001", "DR-000001", "t", "scheduled"⟩], [],
        [("patient_cache:DP-000001", "x"), ("patients_cache", "y"),
          ("emergency_contact_cache:DP-000001_1", "z"), ("appointments_cache", "w")]⟩
      "DP-000001").2.1.patients, r.id ≠ "DP-000001") ∧
    kvGet (deletePatientAndRelated envOK
      ⟨[⟨"DP-000001", "John", "", "Doe", "2000-01-01"⟩], [⟨1, "DP-000001"⟩],
        [⟨2, "DP-000001"⟩],
        [⟨"PB-000001", "DP-000001", "DR-000001", "cleaning", 100, 30, 20, 50, 50⟩],
        [⟨3, "DP-000001"⟩], [⟨4, "DP-000001", "DR-000001", "t", "scheduled"⟩], [],
        [("patient_cache:DP-000001", "x"), ("patients_cache", "y"),
          ("emergency_contact_cache:DP-000001_1", "z"), ("appointments_cache", "w")]⟩
      "DP-000001").2.1.cache (patientCacheKey "DP-000001") = none ∧
    kvGet (deletePatientAndRelated envOK
      ⟨[⟨"DP-000001", "John", "", "Doe", "2000-01-01"⟩], [⟨1, "DP-000001"⟩],
        [⟨2, "DP-000001"⟩],
        [⟨"PB-000001", "DP-000001", "DR-000001", "cleaning", 100, 30, 20, 50, 50⟩],
        [⟨3, "DP-000001"⟩], [⟨4, "DP-000001", "DR-000001", "t", "scheduled"⟩], [],
        [("patient_cache:DP-000001", "x"), ("patients_cache", "y"),
          ("emergency_contact_cache:DP-000001_1", "z"), ("appointments_cache", "w")]⟩
      "DP-000001").2.1.cache (ecCacheKey "DP-000001" 1) = none ∧
    kvGet (deletePatientAndRelated envOK
      ⟨[⟨"DP-000001", "John", "", "Doe", "2000-01-01"⟩], [⟨1, "DP-000001"⟩],
        [⟨2, "DP-000001"⟩],
        [⟨"PB-000001", "DP-000001", "DR-000001", "cleaning", 100, 30, 20, 50, 50⟩],
        [⟨3, "DP-000001"⟩], [⟨4, "DP-000001", "DR-000001", "t", "scheduled"⟩], [],
        [("patient_cache:DP-000001", "x"), ("patients_cache", "y"),
          ("emergency_contact_cache:DP-000001_1", "z"), ("appointments_cache", "w")]⟩
      "DP-000001").2.1.cache "patients_cache" = none := by
  have h := deletePatientAndRelated_clears_rows_and_cache envOK
    ⟨[⟨"DP-000001", "John", "", "Doe", "2000-01-01"⟩], [⟨1, "DP-000001"⟩],
      [⟨2, "DP-000001"⟩],
      [⟨"PB-000001", "DP-000001", "DR-000001", "cleaning", 100, 30, 20, 50, 50⟩],
      [⟨3, "DP-000001"⟩], [⟨4, "DP-000001", "DR-000001", "t", "scheduled"⟩], [],
      [("patient_cache:DP-000001", "x"), ("patients_cache", "y"),
        ("emergency_contact_cache:DP-000001_1", "z"), ("appointments_cache", "w")]⟩
    "DP-000001" (by decide)
  exact ⟨by decide, h.1, h.2.1, h.2.2.2.2.2.2.2.1,
    h.2.2.2.2.2.2.2.2.1 ⟨1, "DP-000001"⟩ (by decide) (by decide),
    h.2.2.2.2.2.2.2.2.2.2.2.2.2.1⟩

/-- C6, counterexample: with the lock unavailable at the first attempt
and available from the second on, a retrying caller succeeds — the
3-attempt loop of patient Create acquires on its second call — but
DeletePatientAndRelated returns a lock error and writes nothing: its
acquisition is a single NewLock call with no retry and no backoff (and
a 60 s TTL), refuting that every mutating caller acquires its lock with
exactly 3 attempts and a 2-second backoff. -/
theorem aggregateDelete_single_attempt :
    (retryAcquire (fun i => i != 0) 3).1 = true ∧
    (deletePatientAndRelated { envOK with avail := fun i => i != 0 }
      ⟨[⟨"DP-000001", "John", "", "Doe", "2000-01-01"⟩], [], [], [], [], [], [], []⟩
      "DP-000001").1 = .lockFailed ∧
    (deletePatientAndRelated { envOK with avail := fun i => i != 0 }
      ⟨[⟨"DP-000001", "John", "", "Doe", "2000-01-01"⟩], [], [], [], [], [], [], []⟩
      "DP-000001").2.1 =
      ⟨[⟨"DP-000001", "John", "", "Doe", "2000-01-01"⟩], [], [], [], [], [], [], []⟩ ∧
    (deletePatientAndRelated { envOK with avail := fun i => i != 0 }
      ⟨[⟨"DP-000001", "John", "", "Doe", "2000-01-01"⟩], [], [], [], [], [], [], []⟩
      "DP-000001").2.2 = ⟨1, 1, 0, 60⟩ := by
  decide

/-- C6, amended: the routine per-record mutating operations acquire
their locks with up to 3 attempts, a 2-second backoff and a 10-second
TTL, while the aggregate-deletion path makes exactly one NewLock call
with a 60-second TTL and no retry; in every case, when acquisition
fails the operation returns a lock error having performed no
backing-store write. -/
theorem lock_retry_policy (env : MutEnv) (stp : PatientState) (sta : ApptState)
    (stb : BillingState) (stg : AggState) (p : PatientRow) (a : ApptRow)
    (b : Billing) (pid : String) :
    ((retryAcquire env.avail 3).1 = false →
      (patientCreate env stp p).1 = .lockFailed ∧
      (patientCreate env stp p).2.1 = stp ∧
      (patientCreate env stp p).2.2 = ⟨3, 3, 2, 10⟩ ∧
      (patientUpdate env stp p).1 = .lockFailed ∧
      (patientUpdate env stp p).2.1 = stp ∧
      (patientUpdate env stp p).2.2 = ⟨3, 3, 2, 10⟩ ∧
      (patientDelete env stp pid).1 = .lockFailed ∧
      (patientDelete env stp pid).2.1 = stp ∧
      (appointmentCreate env sta a).1 = .lockFailed ∧
      (appointmentCreate env sta a).2.1 = sta ∧
      (appointmentCreate env sta a).2.2 = ⟨3, 3, 2, 10⟩ ∧
      (billingCreate env stb b).1 = .lockFailed ∧
      (billingCreate env stb b).2.1 = stb ∧
      (billingCreate env stb b).2.2 = ⟨3, 3, 2, 10⟩) ∧
    ((deletePatientAndRelated env stg pid).2.2 = ⟨1, 1, 0, 60⟩) ∧
    (env.avail 0 = false →
      (deletePatientAndRelated env stg pid).1 = .lockFailed ∧
      (deletePatientAndRelated env stg pid).2.1 = stg) := by
  refine ⟨?_, ?_, ?_⟩
  · intro hfail
    have hatt := retryAcquire_three_attempts env.avail hfail
    unfold patientCreate patientUpdate patientDelete appointmentCreate billingCreate
    simp [hfail, hatt]
  · unfold deletePatientAndRelated
    by_cases h : env.avail 0 <;> simp [h]
  · intro hfail
    unfold deletePatientAndRelated
    simp [hfail]

/-- Witness for C6 with an always-unavailable lock at concrete states. -/
theorem lock_retry_policy_witness :
    ((retryAcquire (fun _ => false) 3).1 = false ∧
      (patientCreate { envOK with avail := fun _ => false } ⟨[], 0, [], []⟩
        ⟨"", "John", "", "Doe", "2000-01-01"⟩).1 = .lockFailed ∧
      (patientCreate { envOK with avail := fun _ => false } ⟨[], 0, [], []⟩
        ⟨"", "John", "", "Doe", "2000-01-01"⟩).2.2 = ⟨3, 3, 2, 10⟩) ∧
    ((deletePatientAndRelated { envOK with avail := fun _ => false }
      ⟨[], [], [], [], [], [], [], []⟩ "DP-000001").2.2 = ⟨1, 1, 0, 60⟩ ∧
      (fun _ => false : Nat → Bool) 0 = false ∧
      (deletePatientAndRelated { envOK with avail := fun _ => false }
        ⟨[], [], [], [], [], [], [], []⟩ "DP-000001").1 = .lockFailed) := by
  have h := lock_retry_policy { envOK with avail := fun _ => false } ⟨[], 0, [], []⟩
    ⟨[], [], []⟩ ⟨[], [], 0, [], []⟩ ⟨[], [], [], [], [], [], [], []⟩
    ⟨"", "John", "", "Doe", "2000-01-01"⟩ ⟨1, "DP-000001", "DR-000001", "t", "scheduled"⟩
    ⟨"", "DP-000001", "DR-000001", "c", 1, 0, 0, 0, 0⟩ "DP-000001"
  have h1 := h.1 (by decide)
  exact ⟨⟨by decide, h1.1, h1.2.2.1⟩, ⟨h.2.1, by decide, (h.2.2 (by decide)).1⟩⟩

end RoyDental
